import Mathlib

/-!
Verification of the queuectl core: a shallow embedding of the job-queue
engine (`queuectl/core/storage.py`, `worker.py`, `dlq_manager.py`,
`config.py`) and proofs of the behavioural properties stated in its
specification.

Modelling conventions:
* SQL tables are lists of records in rowid order; `INSERT OR REPLACE`
  removes the conflicting row and appends the fresh one.
* ISO-8601 UTC timestamp strings are compared lexicographically by SQLite,
  which coincides with chronological order; timestamps are modelled as `Nat`.
* The integer columns `attempts`, `max_retries` and `priority` are written
  only with non-negative values by the program, so they are modelled as `Nat`.
* Python exceptions are modelled with `Except`; a `none`/`Option` result
  models a Python `None` return.
-/

/-- A row of the `jobs` table (schema in `Storage._create_tables`). -/
structure JobRow where
  id : String
  command : String
  state : String
  attempts : Nat
  max_retries : Nat
  created_at : Nat
  updated_at : Nat
  run_at : Option Nat
  priority : Nat
deriving DecidableEq

/-- A row of the `dlq` table. -/
structure DlqRow where
  id : String
  command : String
  attempts : Nat
  max_retries : Nat
  failed_at : Nat
deriving DecidableEq

/-- A row of the `metrics` table (autoincrement id omitted). -/
structure MetricRow where
  job_id : String
  duration : Nat
  status : String
  finished_at : Nat
deriving DecidableEq

/-- The shared SQLite database: one list per table, in rowid order. -/
structure QueueState where
  jobs : List JobRow
  dlq : List DlqRow
  config : List (String × String)
  metrics : List MetricRow
deriving DecidableEq

/-- `Config.get`: value of a config row, or `none` when the key is absent. -/
def config_get (st : QueueState) (key : String) : Option String :=
  (st.config.find? (fun kv => kv.1 == key)).map (fun kv => kv.2)

/-- The `WHERE ... (run_at IS NULL OR run_at <= now)` filter of
`Worker._fetch_pending_job`. -/
def dueB (j : JobRow) (now : Nat) : Bool :=
  match j.run_at with
  | none => true
  | some t => decide (t ≤ now)

/-- A row satisfying the full `WHERE` clause of the claim query:
`state='pending' AND (run_at IS NULL OR run_at <= now)`. -/
def eligibleB (j : JobRow) (now : Nat) : Bool :=
  j.state == "pending" && dueB j now

/-- The `ORDER BY COALESCE(run_at, created_at), created_at` sort key of the
claim query.  Note that `priority` does not occur in it. -/
def order_key (j : JobRow) : Nat × Nat :=
  (j.run_at.getD j.created_at, j.created_at)

/-- Lexicographic comparison of claim-query sort keys. -/
def key_le (a b : JobRow) : Bool :=
  decide ((order_key a).1 < (order_key b).1) ||
    ((order_key a).1 == (order_key b).1 && decide ((order_key a).2 ≤ (order_key b).2))

/-- `SELECT * FROM jobs WHERE state='pending' AND (run_at IS NULL OR
run_at <= ?) ORDER BY COALESCE(run_at, created_at), created_at LIMIT 1`:
the first row (in rowid order) minimising the sort key among eligible rows. -/
def select_best (now : Nat) : List JobRow → Option JobRow
  | [] => none
  | j :: rest =>
    match select_best now rest with
    | none => if eligibleB j now then some j else none
    | some k => if eligibleB j now && key_le j k then some j else some k

/-- `UPDATE jobs SET state='processing', updated_at=? WHERE id=? AND
state='pending'`: the conditional claim update; returns the SQL rowcount
together with the updated table state. -/
def cas_claim (st : QueueState) (job_id : String) (now : Nat) : Nat × QueueState :=
  ((st.jobs.filter (fun j => j.id == job_id && j.state == "pending")).length,
   { st with jobs := st.jobs.map (fun j =>
       if j.id == job_id && j.state == "pending" then
         { j with state := "processing", updated_at := now }
       else j) })

/-- `Worker._fetch_pending_job`: select the best due pending row, then
conditionally flip it to `processing`; a zero rowcount means another worker
won the race and the call returns `None` with no error. -/
def fetch_pending_job (st : QueueState) (now : Nat) : Option JobRow × QueueState :=
  match select_best now st.jobs with
  | none => (none, st)
  | some row =>
    if (cas_claim st row.id now).1 == 0 then (none, (cas_claim st row.id now).2)
    else (some row, (cas_claim st row.id now).2)

/-- `Storage.update_job_state`: `UPDATE jobs SET state=?, attempts=?,
updated_at=? WHERE id=?`. -/
def update_job_state (st : QueueState) (job_id : String) (new_state : String)
    (attempts : Nat) (now : Nat) : QueueState :=
  { st with jobs := st.jobs.map (fun j =>
      if j.id == job_id then
        { j with state := new_state, attempts := attempts, updated_at := now }
      else j) }

/-- `DLQManager.add_to_dlq`: `INSERT OR REPLACE INTO dlq` keyed on id. -/
def add_to_dlq (st : QueueState) (rec : DlqRow) : QueueState :=
  { st with dlq := st.dlq.filter (fun r => !(r.id == rec.id)) ++ [rec] }

/-- `Storage.record_metric`: `INSERT INTO metrics` (append-only). -/
def record_metric (st : QueueState) (job_id : String) (duration : Nat)
    (status : String) (now : Nat) : QueueState :=
  { st with metrics := st.metrics ++ [⟨job_id, duration, status, now⟩] }

/-- `Worker._handle_failure`: if `attempts < max_retries`, sleep
`base_backoff ** attempts` seconds (the returned `some` delay) and put the
job back to `pending`; otherwise mark it `dead` and insert the DLQ record
built from the job dict with `attempts`/`max_retries` overwritten. -/
def handle_failure (st : QueueState) (job : JobRow) (attempts : Nat)
    (base_backoff : Nat) (max_retries : Nat) (now : Nat) : Option Nat × QueueState :=
  if attempts < max_retries then
    (some (base_backoff ^ attempts), update_job_state st job.id "pending" attempts now)
  else
    (none,
     add_to_dlq (update_job_state st job.id "dead" attempts now)
       ⟨job.id, job.command, attempts, max_retries, now⟩)

/-- Outcome of running the job's command as a subprocess: exit code 0, or
any failure (non-zero exit, timeout, unexpected error). -/
inductive ExecOutcome where
  | success : ExecOutcome
  | failure : ExecOutcome
deriving DecidableEq

/-- `Worker._process_job` after a completed execution: `attempts` is the
row's value plus one; success goes to `completed`, every failure branch goes
through `_handle_failure`.  The returned `Option Nat` is the backoff sleep,
when one happens. -/
def process_job (st : QueueState) (job : JobRow) (base_backoff : Nat)
    (now : Nat) (outcome : ExecOutcome) : Option Nat × QueueState :=
  match outcome with
  | .success => (none, update_job_state st job.id "completed" (job.attempts + 1) now)
  | .failure => handle_failure st job (job.attempts + 1) base_backoff job.max_retries now

/-- One worker iteration against a job that always fails: claim the best
due pending job (if any) and run it to a failing exit. -/
def fail_cycle (st : QueueState) (base_backoff : Nat) (now : Nat) : QueueState :=
  match fetch_pending_job st now with
  | (none, st2) => st2
  | (some job, st2) => (process_job st2 job base_backoff now .failure).2

/-- The fresh job built by `DLQManager.retry_job` and the column values the
`INSERT OR REPLACE INTO jobs (id, command, state, attempts, max_retries,
created_at, updated_at)` statement actually stores: `run_at` and `priority`
are not in the column list, so the row gets the schema defaults
(`run_at` NULL, `priority` 5). -/
def retried_job (rec : DlqRow) (now : Nat) : JobRow :=
  { id := rec.id, command := rec.command, state := "pending", attempts := 0,
    max_retries := rec.max_retries, created_at := now, updated_at := now,
    run_at := none, priority := 5 }

/-- `DLQManager.retry_job`: look the id up in the DLQ; if absent return
`None` and change nothing; otherwise reinsert a fresh pending job (same id,
command and max_retries, attempts 0) and delete the DLQ row. -/
def retry_job (st : QueueState) (job_id : String) (now : Nat) :
    Option JobRow × QueueState :=
  match st.dlq.find? (fun r => r.id == job_id) with
  | none => (none, st)
  | some rec =>
    (some (retried_job rec now),
     { st with
        jobs := st.jobs.filter (fun j => !(j.id == job_id)) ++ [retried_job rec now],
        dlq := st.dlq.filter (fun r => !(r.id == job_id)) })

/-- Value of an ASCII decimal digit. -/
def digit_val (c : Char) : Option Nat :=
  if decide ('0' ≤ c) && decide (c ≤ '9') then some (c.toNat - '0'.toNat) else none

/-- Digits after the first one, with Python's single-underscore-between-
digits rule. -/
def digits_tail (acc : Nat) : List Char → Option Nat
  | [] => some acc
  | '_' :: c :: rest =>
    match digit_val c with
    | some d => digits_tail (acc * 10 + d) rest
    | none => none
  | c :: rest =>
    match digit_val c with
    | some d => digits_tail (acc * 10 + d) rest
    | none => none

/-- A non-empty run of digits. -/
def digits_nat : List Char → Option Nat
  | [] => none
  | c :: rest =>
    match digit_val c with
    | some d => digits_tail d rest
    | none => none

/-- Whitespace stripped by Python's `int(str)`. -/
def is_py_space (c : Char) : Bool :=
  c == ' ' || c == '\t' || c == '\n' || c == '\x0d' || c == '\x0b' || c == '\x0c'

/-- Python's `int(str)` on ASCII input: strip whitespace, optional sign,
non-empty digit run; anything else raises `ValueError` (modelled `none`). -/
def py_int_of_string (s : String) : Option Int :=
  match (s.toList.dropWhile is_py_space).reverse.dropWhile is_py_space |>.reverse with
  | '+' :: rest => (digits_nat rest).map (fun n => (n : Int))
  | '-' :: rest => (digits_nat rest).map (fun n => -(n : Int))
  | rest => (digits_nat rest).map (fun n => (n : Int))

/-- `int(self.config.get(key, dflt))` as executed at the top of
`Worker._process_job` (outside its try block): an absent key yields the
integer default, a present value is converted with `int()`, and a
conversion failure raises `ValueError` out of `_process_job`
(modelled as `Except.error` carrying the offending value). -/
def worker_config_int (st : QueueState) (key : String) (dflt : Int) :
    Except String Int :=
  match config_get st key with
  | none => Except.ok dflt
  | some v =>
    match py_int_of_string v with
    | some n => Except.ok n
    | none => Except.error v

/-- Where one worker stands in the claim protocol of
`Worker._fetch_pending_job` for the contended pending row: before its
`SELECT`, after a successful `SELECT` (the row was still pending), or
returned — `done true` when its conditional `UPDATE` reported rowcount 1
(it owns the job), `done false` when the call returned `None`. -/
inductive WStatus where
  | start : WStatus
  | selected : WStatus
  | done : Bool → WStatus
deriving DecidableEq

/-- Shared database state seen by K racing workers, restricted to the one
contended row: whether it is still `pending`, plus each worker's progress. -/
structure ClaimState (K : Nat) where
  pending : Bool
  status : Fin K → WStatus

/-- One atomic SQL statement executed by worker `w`.  From `.start` the
`SELECT` either sees the pending row (→ `.selected`) or finds no row and the
call returns `None`.  From `.selected` the conditional `UPDATE ... WHERE
id=? AND state='pending'` claims the row iff it is still pending; rowcount 0
returns `None`.  A finished worker takes no further step. -/
def claim_step {K : Nat} (s : ClaimState K) (w : Fin K) : ClaimState K :=
  match s.status w with
  | .start =>
    if s.pending then ⟨s.pending, Function.update s.status w .selected⟩
    else ⟨s.pending, Function.update s.status w (.done false)⟩
  | .selected =>
    if s.pending then ⟨false, Function.update s.status w (.done true)⟩
    else ⟨s.pending, Function.update s.status w (.done false)⟩
  | .done _ => s

/-- Initial race state: the contended row is `pending`, no worker has
started its claim call. -/
def init_claim_state (K : Nat) : ClaimState K := ⟨true, fun _ => .start⟩

/-- Run an arbitrary interleaving (schedule) of the K workers' atomic
statements. -/
def run_schedule {K : Nat} (sched : List (Fin K)) : ClaimState K :=
  sched.foldl claim_step (init_claim_state K)

/-- A worker's claim call has returned. -/
def WStatus.isDone : WStatus → Bool
  | .done _ => true
  | _ => false

/-- Repeated worker iterations against an always-failing workload, one
`fail_cycle` per listed poll time, with `base_backoff = 2`. -/
def fail_run : QueueState → List Nat → QueueState
  | st, [] => st
  | st, t :: ts => fail_run (fail_cycle st 2 t) ts

/-- Invariant of the claim race: while the row is still `pending` no claim
call has returned and every started worker merely holds a `SELECT`
snapshot; once it is `processing` (`pending = false`) exactly one worker's
conditional `UPDATE` has succeeded. -/
def claim_inv {K : Nat} (s : ClaimState K) : Prop :=
  (s.pending = true ∧ ∀ w, s.status w = WStatus.start ∨ s.status w = WStatus.selected) ∨
  (s.pending = false ∧ ∃ w0, s.status w0 = WStatus.done true ∧
    ∀ w, w ≠ w0 → s.status w ≠ WStatus.done true)

/-- Example job used as a concrete instance in several witnesses. -/
def jA : JobRow :=
  ⟨"a", "echo hi", "pending", 0, 3, 0, 0, none, 5⟩

/-- Scheduled job: `run_at` ten units in the future. -/
def wJob : JobRow :=
  ⟨"w", "sleep 1", "pending", 0, 3, 0, 0, some 10, 5⟩

/-- One-job table holding the scheduled job. -/
def wSt : QueueState := ⟨[wJob], [], [], []⟩

/-- Always-failing job with `max_retries = 3`, as in the retry-accounting
scenario. -/
def jR : JobRow :=
  ⟨"r", "false", "pending", 0, 3, 0, 0, none, 5⟩

/-- Initial table for the retry-accounting scenario. -/
def stR : QueueState := ⟨[jR], [], [], []⟩

/-- Job A of the ordering scenario: priority 1, created at t0 = 0. -/
def jobA3 : JobRow := ⟨"A", "cmdA", "pending", 0, 3, 0, 0, none, 1⟩

/-- Job B of the ordering scenario: priority 1, created at t1 = 1. -/
def jobB3 : JobRow := ⟨"B", "cmdB", "pending", 0, 3, 1, 1, none, 1⟩

/-- Job C of the ordering scenario: priority 0, created at t2 = 2. -/
def jobC3 : JobRow := ⟨"C", "cmdC", "pending", 0, 3, 2, 2, none, 0⟩

/-- Table holding the three ordering-scenario jobs. -/
def st3 : QueueState := ⟨[jobA3, jobB3, jobC3], [], [], []⟩

/-- A dead-lettered job's DLQ record. -/
def recD : DlqRow := ⟨"d1", "false", 3, 3, 7⟩

/-- State holding the dead job row and its DLQ record; the dead row kept a
non-default priority and a schedule. -/
def stD : QueueState :=
  ⟨[⟨"d1", "false", "dead", 3, 3, 0, 7, some 50, 2⟩], [recD], [], []⟩

/-- State whose `base_backoff` config value does not convert to an int. -/
def st9 : QueueState := ⟨[jA], [], [("base_backoff", "abc")], []⟩

/-- Mapping a row-transformer that keeps ids over a table keeps the id
column unchanged. -/
theorem map_preserves_ids (rows : List JobRow) (f : JobRow → JobRow)
    (hf : ∀ j, (f j).id = j.id) :
    (rows.map f).map (fun j => j.id) = rows.map (fun j => j.id) := by
  induction rows with
  | nil => rfl
  | cons a t ih => simp [hf, ih]

/-- `update_job_state` neither deletes nor inserts rows: the id column is
unchanged. -/
theorem update_job_state_ids (st : QueueState) (job_id new_state : String)
    (attempts now : Nat) :
    ((update_job_state st job_id new_state attempts now).jobs.map (fun j => j.id)) =
      st.jobs.map (fun j => j.id) := by
  unfold update_job_state
  apply map_preserves_ids
  intro j
  by_cases h : j.id == job_id
  · simp [h]
  · simp [h]

/-- Appending one element determines `getLast?`. -/
theorem getLast_append_singleton {α : Type} (l : List α) (a : α) :
    (l ++ [a]).getLast? = some a := by
  induction l with
  | nil => rfl
  | cons b t ih =>
    cases t with
    | nil => rfl
    | cons c u => simpa using ih

/-- Any row returned by the claim query's `SELECT` satisfies its `WHERE`
clause. -/
theorem select_best_eligible (now : Nat) :
    ∀ (rows : List JobRow) (j : JobRow),
      select_best now rows = some j → eligibleB j now = true := by
  intro rows
  induction rows with
  | nil => intro j h; simp [select_best] at h
  | cons r rest ih =>
    intro j h
    unfold select_best at h
    cases hrec : select_best now rest with
    | none =>
      rw [hrec] at h
      cases he : eligibleB r now with
      | true => rw [he] at h; simp at h; rw [← h]; exact he
      | false => rw [he] at h; simp at h
    | some k =>
      rw [hrec] at h
      cases hcond : (eligibleB r now && key_le r k) with
      | true =>
        simp [hcond] at h; rw [← h]
        exact (Bool.and_eq_true_iff.mp hcond).1
      | false =>
        simp [hcond] at h; rw [← h]
        exact ih k hrec

/-- C4: on every retriable failure (incremented `attempts < max_retries`)
the worker sleeps exactly `base_backoff ^ attempts` seconds and then
returns the job to `pending` with the incremented attempts count. -/
theorem C4_backoff_delay (st : QueueState) (job : JobRow)
    (attempts base_backoff max_retries now : Nat) (h : attempts < max_retries) :
    (handle_failure st job attempts base_backoff max_retries now).1 =
      some (base_backoff ^ attempts) ∧
    (handle_failure st job attempts base_backoff max_retries now).2 =
      update_job_state st job.id "pending" attempts now := by
  unfold handle_failure
  rw [if_pos h]
  exact ⟨rfl, rfl⟩

/-- Witness for C4: with `base_backoff = 2` and `max_retries = 4` the sleeps
before retries 1, 2, 3 are 2, 4 and 8 seconds. -/
theorem C4_backoff_delay_witness :
    (handle_failure ⟨[jA], [], [], []⟩ jA 1 2 4 9).1 = some 2 ∧
    (handle_failure ⟨[jA], [], [], []⟩ jA 2 2 4 9).1 = some 4 ∧
    (handle_failure ⟨[jA], [], [], []⟩ jA 3 2 4 9).1 = some 8 :=
  ⟨((C4_backoff_delay ⟨[jA], [], [], []⟩ jA 1 2 4 9 (by decide)).1).trans (by decide),
   ((C4_backoff_delay ⟨[jA], [], [], []⟩ jA 2 2 4 9 (by decide)).1).trans (by decide),
   ((C4_backoff_delay ⟨[jA], [], [], []⟩ jA 3 2 4 9 (by decide)).1).trans (by decide)⟩

/-- C6: when the incremented `attempts` reaches `max_retries`, the failure
handler keeps the job row in the catalog (the id column of the jobs table is
unchanged), merely rewriting the row to state `dead`, and insert-or-replaces
a DLQ record carrying the job's command, the final attempts, the
max_retries and the failure timestamp. -/
theorem C6_dead_letter_frame (st : QueueState) (job : JobRow)
    (attempts base_backoff max_retries now : Nat) (h : max_retries ≤ attempts) :
    ((handle_failure st job attempts base_backoff max_retries now).2).jobs.map
        (fun j => j.id) = st.jobs.map (fun j => j.id) ∧
    ((handle_failure st job attempts base_backoff max_retries now).2).jobs =
      st.jobs.map (fun j =>
        if j.id == job.id then
          { j with state := "dead", attempts := attempts, updated_at := now }
        else j) ∧
    ((handle_failure st job attempts base_backoff max_retries now).2).dlq =
      st.dlq.filter (fun r => !(r.id == job.id)) ++
        [⟨job.id, job.command, attempts, max_retries, now⟩] := by
  have hn : ¬ attempts < max_retries := Nat.not_lt.mpr h
  unfold handle_failure
  rw [if_neg hn]
  exact ⟨update_job_state_ids st job.id "dead" attempts now, rfl, rfl⟩

/-- Witness for C6: a third failure of the `max_retries = 3` job leaves its
row in the catalog as `dead` and records it in the DLQ. -/
theorem C6_dead_letter_frame_witness :
    ((handle_failure ⟨[jR], [], [], []⟩ jR 3 2 3 9).2).jobs.map (fun j => j.id) =
      ["r"] ∧
    ((handle_failure ⟨[jR], [], [], []⟩ jR 3 2 3 9).2).dlq =
      [⟨"r", "false", 3, 3, 9⟩] :=
  ⟨((C6_dead_letter_frame ⟨[jR], [], [], []⟩ jR 3 2 3 9 (by decide)).1).trans (by decide),
   ((C6_dead_letter_frame ⟨[jR], [], [], []⟩ jR 3 2 3 9 (by decide)).2.2).trans (by decide)⟩

/-- C5: `retry_job` on an id with no DLQ record returns `None` and leaves
the database untouched; on an id with a DLQ record it returns a fresh
`pending` job with `attempts = 0` and the record's id, command and
max_retries, insert-or-replaces that row into the jobs table, and deletes
the DLQ row. -/
theorem C5_retry_reset (st : QueueState) (job_id : String) (now : Nat)
    (rec : DlqRow) :
    (st.dlq.find? (fun r => r.id == job_id) = none →
      retry_job st job_id now = (none, st)) ∧
    (st.dlq.find? (fun r => r.id == job_id) = some rec →
      (retry_job st job_id now).1 = some (retried_job rec now) ∧
      (retried_job rec now).state = "pending" ∧
      (retried_job rec now).attempts = 0 ∧
      (retried_job rec now).id = rec.id ∧
      (retried_job rec now).command = rec.command ∧
      (retried_job rec now).max_retries = rec.max_retries ∧
      ((retry_job st job_id now).2).dlq = st.dlq.filter (fun r => !(r.id == job_id)) ∧
      ((retry_job st job_id now).2).jobs =
        st.jobs.filter (fun j => !(j.id == job_id)) ++ [retried_job rec now]) := by
  constructor
  · intro h
    unfold retry_job
    rw [h]
  · intro h
    unfold retry_job
    rw [h]
    exact ⟨rfl, rfl, rfl, rfl, rfl, rfl, rfl, rfl⟩

/-- Witness for C5: retrying a missing id changes nothing; retrying the
recorded id yields the reset pending job and empties the DLQ. -/
theorem C5_retry_reset_witness :
    (retry_job stD "nope" 9 = (none, stD)) ∧
    ((retry_job stD "d1" 9).1 = some (retried_job recD 9)) ∧
    ((retry_job stD "d1" 9).2).dlq = [] :=
  ⟨(C5_retry_reset stD "nope" 9 recD).1 (by decide),
   ((C5_retry_reset stD "d1" 9 recD).2 (by decide)).1,
   (((C5_retry_reset stD "d1" 9 recD).2 (by decide)).2.2.2.2.2.2.1).trans (by decide)⟩

/-- C10: the row reinserted by a DLQ retry carries the schema defaults for
the columns absent from its `INSERT` column list — `priority` 5 and a null
`run_at` — so it passes the claim query's due filter at every poll time,
whatever priority or schedule the replaced row had. -/
theorem C10_retry_defaults (st : QueueState) (job_id : String)
    (now now2 : Nat) (rec : DlqRow)
    (h : st.dlq.find? (fun r => r.id == job_id) = some rec) :
    ((retry_job st job_id now).2).jobs.getLast? = some (retried_job rec now) ∧
    (retried_job rec now).priority = 5 ∧
    (retried_job rec now).run_at = none ∧
    eligibleB (retried_job rec now) now2 = true := by
  unfold retry_job
  rw [h]
  refine ⟨getLast_append_singleton _ _, rfl, rfl, ?_⟩
  simp [eligibleB, dueB, retried_job]

/-- Witness for C10: the dead row had priority 2 and `run_at` 50, yet the
retried row has priority 5, no schedule, and is due immediately (poll
time 0). -/
theorem C10_retry_defaults_witness :
    ((retry_job stD "d1" 9).2).jobs.getLast? = some (retried_job recD 9) ∧
    (retried_job recD 9).priority = 5 ∧
    (retried_job recD 9).run_at = none ∧
    eligibleB (retried_job recD 9) 0 = true :=
  C10_retry_defaults stD "d1" 9 0 recD (by decide)

/-- C2 (amended): an always-failing job with `max_retries = 3` is claimed
into `processing`, then goes `pending→processing→pending` twice (attempts
1 and 2, the retriable failures), and on the third failure — where the
incremented attempts equals `max_retries` — it transitions to `dead` with
attempts 3 frozen in the DLQ record; no fourth execution happens (the next
poll finds nothing). -/
theorem C2_retry_accounting :
    ((fetch_pending_job stR 1).2).jobs.map (fun j => (j.state, j.attempts)) =
      [("processing", 0)] ∧
    (fail_run stR [1]).jobs.map (fun j => (j.state, j.attempts)) =
      [("pending", 1)] ∧
    ((fetch_pending_job (fail_run stR [1]) 2).2).jobs.map
        (fun j => (j.state, j.attempts)) = [("processing", 1)] ∧
    (fail_run stR [1, 2]).jobs.map (fun j => (j.state, j.attempts)) =
      [("pending", 2)] ∧
    (fail_run stR [1, 2, 3]).jobs.map (fun j => (j.state, j.attempts)) =
      [("dead", 3)] ∧
    (fail_run stR [1, 2, 3]).dlq = [⟨"r", "false", 3, 3, 3⟩] ∧
    (fetch_pending_job (fail_run stR [1, 2, 3]) 4).1 = none := by
  decide

/-- Counterexample to C2 as stated: the claim requires the job to return to
`pending` after its third failure (attempts 1, 2, 3 all retried, death only
on a fourth failure), but after the third failure cycle the row is already
`dead`, not `pending`. -/
theorem C2_counterexample :
    ¬ ((fail_run stR [1, 2, 3]).jobs.map (fun j => j.state) = ["pending"]) := by
  decide

/-- C3 (amended): the claim query orders due pending rows by
`(COALESCE(run_at, created_at), created_at)` only — `priority` does not
appear in its `ORDER BY` — so for jobs A(priority 1, created 0),
B(priority 1, created 1), C(priority 0, created 2) the successive claims
return A, then B, then C. -/
theorem C3_claim_order :
    (fetch_pending_job st3 10).1 = some jobA3 ∧
    (fetch_pending_job (fetch_pending_job st3 10).2 10).1 = some jobB3 ∧
    (fetch_pending_job (fetch_pending_job (fetch_pending_job st3 10).2 10).2 10).1 =
      some jobC3 := by
  decide

/-- Counterexample to C3 as stated: the claim requires the first claim on
the A/B/C table to return C (the lowest-priority-value job); it returns A. -/
theorem C3_counterexample :
    ¬ ((fetch_pending_job st3 10).1 = some jobC3) := by
  decide

/-- C8 (amended): the worker's processing path never writes a metric — the
metrics table is unchanged by claiming a job and by every execution
outcome, terminal or retriable; `Storage.record_metric` exists but is not
invoked by the worker. -/
theorem C8_no_metric_recorded (st : QueueState) (job : JobRow)
    (base_backoff now : Nat) (outcome : ExecOutcome) :
    ((process_job st job base_backoff now outcome).2).metrics = st.metrics ∧
    ((fetch_pending_job st now).2).metrics = st.metrics ∧
    (record_metric st job.id 1 "completed" now).metrics =
      st.metrics ++ [⟨job.id, 1, "completed", now⟩] := by
  refine ⟨?_, ?_, rfl⟩
  · cases outcome with
    | success => rfl
    | failure =>
      show (handle_failure st job (job.attempts + 1) base_backoff
              job.max_retries now).2.metrics = st.metrics
      unfold handle_failure
      split
      · rfl
      · rfl
  · unfold fetch_pending_job
    split
    · rfl
    · split
      · rfl
      · rfl

/-- Counterexample to C8 as stated: processing the example job to its
terminal `completed` outcome records zero metrics, not exactly one. -/
theorem C8_counterexample :
    ¬ (((process_job ⟨[jA], [], [], []⟩ jA 2 9 ExecOutcome.success).2).metrics.length
        = 1) := by
  decide

/-- C9 (amended): a present config value that `int()` cannot convert makes
the conversion at the top of `Worker._process_job` raise (modelled
`Except.error`), rather than falling back to the default; the default is
used only when the key is absent. -/
theorem C9_conversion_raises (st : QueueState) (key : String) (dflt : Int)
    (v : String) (h1 : config_get st key = some v)
    (h2 : py_int_of_string v = none) :
    worker_config_int st key dflt = Except.error v ∧
    (config_get st key = none → worker_config_int st key dflt = Except.ok dflt) := by
  constructor
  · simp [worker_config_int, h1, h2]
  · intro h0
    rw [h0] at h1
    exact absurd h1 (by simp)

/-- Witness for C9: with `base_backoff` stored as `"abc"` the worker's
conversion raises with the offending value. -/
theorem C9_conversion_raises_witness :
    worker_config_int st9 "base_backoff" 2 = Except.error "abc" :=
  (C9_conversion_raises st9 "base_backoff" 2 "abc" (by decide) (by decide)).1

/-- Counterexample to C9 as stated: the claim requires the conversion
failure on `base_backoff = "abc"` to yield the default 2 and continue; the
call does not produce the default. -/
theorem C9_counterexample :
    ¬ ((worker_config_int st9 "base_backoff" 2).toOption = some 2) := by
  decide

/-- C7: a pending job scheduled strictly in the future is never the claim
call's result — every returned row passes the `run_at <= now` filter — and
once the poll time reaches `run_at` the job is claimable at once (for the
single-row table, the claim returns exactly it). -/
theorem C7_scheduled_visibility (st : QueueState) (now : Nat) (j : JobRow)
    (t : Nat) (hrun : j.run_at = some t) :
    (now < t → ¬ ((fetch_pending_job st now).1 = some j)) ∧
    (t ≤ now → j.state = "pending" → st.jobs = [j] →
      (fetch_pending_job st now).1 = some j) := by
  constructor
  · intro hlt h
    unfold fetch_pending_job at h
    cases hsel : select_best now st.jobs with
    | none => rw [hsel] at h; simp at h
    | some row =>
      rw [hsel] at h
      have helig : eligibleB row now = true := select_best_eligible now st.jobs row hsel
      cases hn : ((cas_claim st row.id now).1 == 0) with
      | true => simp [hn] at h
      | false =>
        simp [hn] at h
        rw [h] at helig
        have hdue : dueB j now = true := (Bool.and_eq_true_iff.mp helig).2
        rw [dueB, hrun] at hdue
        exact absurd (of_decide_eq_true hdue) (Nat.not_le.mpr hlt)
  · intro ht hpend hjobs
    have helig : eligibleB j now = true := by
      simp [eligibleB, dueB, hpend, hrun, ht]
    have hsel : select_best now st.jobs = some j := by
      rw [hjobs]
      simp [select_best, helig]
    have hcas : (cas_claim st j.id now).1 = 1 := by
      unfold cas_claim
      rw [hjobs]
      simp [hpend]
    unfold fetch_pending_job
    rw [hsel]
    simp [hcas]

/-- Witness for C7: the job scheduled at `run_at = 10` is not returned by a
poll at time 5 and is returned by a poll at time 10. -/
theorem C7_scheduled_visibility_witness :
    (¬ ((fetch_pending_job wSt 5).1 = some wJob)) ∧
    ((fetch_pending_job wSt 10).1 = some wJob) :=
  ⟨(C7_scheduled_visibility wSt 5 wJob 10 rfl).1 (by decide),
   (C7_scheduled_visibility wSt 10 wJob 10 rfl).2 (by decide) rfl rfl⟩

/-- Every atomic step of the claim race preserves the invariant. -/
theorem claim_step_inv {K : Nat} (s : ClaimState K) (w : Fin K)
    (h : claim_inv s) : claim_inv (claim_step s w) := by
  rcases h with ⟨hp, hall⟩ | ⟨hp, w0, hw0, huniq⟩
  · rcases hall w with hw | hw
    · -- the stepping worker runs its SELECT while the row is pending
      left
      refine ⟨by simp [claim_step, hw, hp], ?_⟩
      intro w2
      by_cases he : w2 = w
      · subst he
        right
        simp [claim_step, hw, hp]
      · have h2 : (claim_step s w).status w2 = s.status w2 := by
          simp [claim_step, hw, hp, Function.update_noteq he]
        rw [h2]
        exact hall w2
    · -- the stepping worker runs its UPDATE and wins the row
      right
      refine ⟨by simp [claim_step, hw, hp], w, by simp [claim_step, hw, hp], ?_⟩
      intro w2 hne
      have h2 : (claim_step s w).status w2 = s.status w2 := by
        simp [claim_step, hw, hp, Function.update_noteq hne]
      rw [h2]
      rcases hall w2 with h3 | h3 <;> simp [h3]
  · -- the row is already processing; no further step can win it
    have hne0 : ∀ hsw : s.status w = WStatus.start, w0 ≠ w := by
      intro hsw he
      rw [he, hsw] at hw0
      exact WStatus.noConfusion hw0
    cases hsw : s.status w with
    | start =>
      right
      refine ⟨by simp [claim_step, hsw, hp], w0, ?_, ?_⟩
      · rw [show (claim_step s w).status w0 = s.status w0 by
          simp [claim_step, hsw, hp, Function.update_noteq (hne0 hsw)]]
        exact hw0
      · intro w2 hne2
        by_cases he : w2 = w
        · subst he
          simp [claim_step, hsw, hp]
        · rw [show (claim_step s w).status w2 = s.status w2 by
            simp [claim_step, hsw, hp, Function.update_noteq he]]
          exact huniq w2 hne2
    | selected =>
      have hne0s : w0 ≠ w := by
        intro he
        rw [he, hsw] at hw0
        exact WStatus.noConfusion hw0
      right
      refine ⟨by simp [claim_step, hsw, hp], w0, ?_, ?_⟩
      · rw [show (claim_step s w).status w0 = s.status w0 by
          simp [claim_step, hsw, hp, Function.update_noteq hne0s]]
        exact hw0
      · intro w2 hne2
        by_cases he : w2 = w
        · subst he
          simp [claim_step, hsw, hp]
        · rw [show (claim_step s w).status w2 = s.status w2 by
            simp [claim_step, hsw, hp, Function.update_noteq he]]
          exact huniq w2 hne2
    | done b =>
      have hid : claim_step s w = s := by
        simp [claim_step, hsw]
      rw [hid]
      exact Or.inr ⟨hp, w0, hw0, huniq⟩

/-- The invariant holds after any interleaving prefix. -/
theorem foldl_claim_inv {K : Nat} :
    ∀ (sched : List (Fin K)) (s : ClaimState K),
      claim_inv s → claim_inv (sched.foldl claim_step s)
  | [], _, h => h
  | a :: t, s, h => foldl_claim_inv t (claim_step s a) (claim_step_inv s a h)

/-- C1: in every interleaving of K workers' claim calls on one pending job
in which all calls return, exactly one worker's conditional update succeeds
(it obtains the job) and the other K - 1 calls return `None` ("not
available", no error), for every K and every schedule. -/
theorem C1_at_most_one_claim (K : Nat) (hK : 0 < K) (sched : List (Fin K))
    (hdone : ∀ w : Fin K, ((run_schedule sched).status w).isDone = true) :
    (Finset.univ.filter
      (fun w : Fin K => (run_schedule sched).status w = WStatus.done true)).card = 1 ∧
    (Finset.univ.filter
      (fun w : Fin K => (run_schedule sched).status w = WStatus.done false)).card =
        K - 1 := by
  have hinv : claim_inv (run_schedule sched) :=
    foldl_claim_inv sched _ (Or.inl ⟨rfl, fun _ => Or.inl rfl⟩)
  rcases hinv with ⟨hp, hall⟩ | ⟨hp, w0, hw0, huniq⟩
  · exfalso
    have hw := hdone ⟨0, hK⟩
    rcases hall ⟨0, hK⟩ with h2 | h2 <;> rw [h2] at hw <;>
      simp [WStatus.isDone] at hw
  · have hother : ∀ w : Fin K, w ≠ w0 →
        (run_schedule sched).status w = WStatus.done false := by
      intro w hne
      have hd := hdone w
      cases hsw : (run_schedule sched).status w with
      | start => rw [hsw] at hd; simp [WStatus.isDone] at hd
      | selected => rw [hsw] at hd; simp [WStatus.isDone] at hd
      | done b =>
        cases b with
        | true => exact absurd hsw (huniq w hne)
        | false => rfl
    constructor
    · rw [Finset.card_eq_one]
      refine ⟨w0, ?_⟩
      ext w
      simp only [Finset.mem_filter, Finset.mem_univ, true_and, Finset.mem_singleton]
      constructor
      · intro hw
        by_contra hne
        exact huniq w hne hw
      · intro hw
        rw [hw]
        exact hw0
    · have hset : Finset.univ.filter
          (fun w : Fin K => (run_schedule sched).status w = WStatus.done false) =
            Finset.univ.erase w0 := by
        ext w
        simp only [Finset.mem_filter, Finset.mem_univ, true_and, Finset.mem_erase,
          and_true]
        constructor
        · intro hw he
          rw [he] at hw
          have hcontra := hw0.symm.trans hw
          exact absurd hcontra (by decide)
        · intro hne
          exact hother w hne
      rw [hset, Finset.card_erase_of_mem (Finset.mem_univ w0), Finset.card_univ,
        Fintype.card_fin]

/-- Witness for C1: two workers, schedule "both SELECT, then both UPDATE" —
the fully overlapped race; exactly one wins, one observes nothing. -/
theorem C1_at_most_one_claim_witness :
    (Finset.univ.filter
      (fun w : Fin 2 => (run_schedule [0, 1, 0, 1]).status w = WStatus.done true)).card
        = 1 ∧
    (Finset.univ.filter
      (fun w : Fin 2 => (run_schedule [0, 1, 0, 1]).status w = WStatus.done false)).card
        = 1 :=
  C1_at_most_one_claim 2 (by decide) [0, 1, 0, 1] (by decide)
